import Mathlib

set_option maxRecDepth 4000

/-!
Verification of the proxy server in `src/proxy_server/proxy_server.py`
(classes `HTTPCache`, `HTTPProxy`, `UDPQoSProxy`) against its
natural-language specification.

Modelling conventions:
* A Python `str` is a list of Unicode code points (`PyStr := List Nat`);
  a byte string is a `List Nat` of values below 256.
* The cache dictionary `HTTPCache.cache` is an association list whose
  lookup takes the most recently inserted binding for a key, which is
  exactly the observable behaviour of a Python `dict` under assignment.
* Paths are `Option PyStr`: `extract_path` returns `None` on a malformed
  request line, and that sentinel is used as a cache key unchanged.
* Network effects are an oracle: the origin's behaviour during one
  `forward_to_web_server` call is a `ConnectResult` (did `connect`
  succeed, time out, get refused, or raise something else) together with
  the sequence of `recv` outcomes observed by the receive loop.
-/

/-- A Python `str` value, as its sequence of Unicode code points. -/
abbrev PyStr := List Nat

/-- Code points of a Lean string literal, used to transcribe the Python
string literals of the source. -/
def pyStr (s : String) : PyStr := s.data.map Char.toNat

/-- Python `s.startswith(pat)` on sequences. -/
def listStartsWith : List Nat → List Nat → Bool
  | _, [] => true
  | [], _ :: _ => false
  | c :: cs, p :: ps => c == p && listStartsWith cs ps

/-- The admission literal `"HTTP/1.1 200"` from `HTTPCache.set`. -/
def http200 : PyStr := pyStr "HTTP/1.1 200"

/-- A cache key: the extracted path, or `none` for Python's `None`
sentinel produced by `extract_path` on malformed request lines. -/
abbrev PathKey := Option PyStr

/-- The backing dictionary of `HTTPCache`, as an association list in
which the head is the most recent assignment. -/
abbrev Cache := List (PathKey × PyStr)

/-- Python `dict` lookup (`path in self.cache` / `self.cache[path]`):
the most recent binding for the key wins. -/
def cacheLookup : Cache → PathKey → Option PyStr
  | [], _ => none
  | (k, v) :: rest, p => if k = p then some v else cacheLookup rest p

/-- `HTTPCache.get`: return the cached response for `path`, or `None`. -/
def HTTPCache.get (c : Cache) (path : PathKey) : Option PyStr :=
  cacheLookup c path

/-- `HTTPCache.set`: store `response` under `path` iff it starts with
`"HTTP/1.1 200"`; return the new dictionary together with the Python
return value (`True` iff stored). -/
def HTTPCache.set (c : Cache) (path : PathKey) (response : PyStr) : Cache × Bool :=
  if listStartsWith response http200 then ((path, response) :: c, true)
  else (c, false)

/-- `HTTPCache.clear`: drop every entry. -/
def HTTPCache.clear (_ : Cache) : Cache := []

/-- C1: `HTTPCache.set` returns `True` and stores the response under
the path iff the response starts with the ASCII literal
`"HTTP/1.1 200"`; otherwise it returns `False` and leaves the
dictionary untouched. -/
theorem admit_stores_iff_http200 (c : Cache) (p : PathKey) (r : PyStr) :
    (listStartsWith r http200 = true →
      HTTPCache.set c p r = ((p, r) :: c, true) ∧
      cacheLookup (HTTPCache.set c p r).1 p = some r) ∧
    (listStartsWith r http200 = false →
      HTTPCache.set c p r = (c, false)) := by
  constructor
  · intro h
    simp [HTTPCache.set, h, cacheLookup]
  · intro h
    simp [HTTPCache.set, h]

/-- Witness for C1 at a concrete 200 response and a concrete 404
response. -/
theorem admit_stores_iff_http200_witness :
    (HTTPCache.set [] (some (pyStr "/a")) (pyStr "HTTP/1.1 200 OK") =
       ((some (pyStr "/a"), pyStr "HTTP/1.1 200 OK") :: [], true) ∧
     cacheLookup (HTTPCache.set [] (some (pyStr "/a")) (pyStr "HTTP/1.1 200 OK")).1
       (some (pyStr "/a")) = some (pyStr "HTTP/1.1 200 OK")) ∧
    HTTPCache.set [] (some (pyStr "/a")) (pyStr "HTTP/1.1 404 Not Found") =
      ([], false) :=
  ⟨(admit_stores_iff_http200 [] (some (pyStr "/a")) (pyStr "HTTP/1.1 200 OK")).1
      (by decide),
   (admit_stores_iff_http200 [] (some (pyStr "/a")) (pyStr "HTTP/1.1 404 Not Found")).2
      (by decide)⟩

/-!
UTF-8, as used by `forward_to_web_server` (which decodes the origin's
bytes with `response.decode('utf-8', errors='ignore')`) and by
`handle_client` (which re-encodes with
`response.encode('utf-8', errors='ignore')`).  The decoder below models
CPython's UTF-8 decoder: a well-formed sequence (no overlong forms, no
surrogates, at most U+10FFFF) yields its code point, and ill-formed
bytes are skipped because of `errors='ignore'`.  The exact number of
bytes skipped at an ill-formed position is irrelevant to every theorem
in this file; the model skips the offending lead byte.
-/

/-- A UTF-8 continuation byte, `0x80`–`0xBF`. -/
abbrev isCont (b : Nat) : Prop := 128 ≤ b ∧ b < 192

/-- Constraint on the first continuation byte of a three-byte sequence
with lead byte `b0` (rules out overlong forms after `0xE0` and
surrogates after `0xED`). -/
abbrev cont3fst (b0 b1 : Nat) : Prop :=
  (b0 = 224 → 160 ≤ b1) ∧ (b0 = 237 → b1 < 160) ∧ 128 ≤ b1 ∧ b1 < 192

/-- Constraint on the first continuation byte of a four-byte sequence
with lead byte `b0` (rules out overlong forms after `0xF0` and values
beyond U+10FFFF after `0xF4`). -/
abbrev cont4fst (b0 b1 : Nat) : Prop :=
  (b0 = 240 → 144 ≤ b1) ∧ (b0 = 244 → b1 < 144) ∧ 128 ≤ b1 ∧ b1 < 192

/-- Decoder state: the lead byte and continuation bytes of a UTF-8
sequence read so far but not yet complete. -/
inductive Pending where
  | none
  | e2 (b0 : Nat)
  | e3a (b0 : Nat)
  | e3b (b0 b1 : Nat)
  | e4a (b0 : Nat)
  | e4b (b0 b1 : Nat)
  | e4c (b0 b1 b2 : Nat)
deriving DecidableEq

/-- How the decoder treats one byte in start position: an ASCII byte is
emitted, a valid lead byte opens a multi-byte sequence, and anything
else (an invalid lead byte) is dropped by `errors='ignore'`. -/
def leadOf (b : Nat) : List Nat × Pending :=
  if b < 128 then ([b], .none)
  else if 194 ≤ b ∧ b ≤ 223 then ([], .e2 b)
  else if 224 ≤ b ∧ b ≤ 239 then ([], .e3a b)
  else if 240 ≤ b ∧ b ≤ 244 then ([], .e4a b)
  else ([], .none)

/-- The decoding loop.  A byte that fails the continuation constraint
of the open sequence aborts that sequence (its bytes are dropped) and
is re-examined in start position, as CPython does. -/
def decodeAux : Pending → List Nat → List Nat
  | _, [] => []
  | .none, b :: bs =>
    match leadOf b with
    | (out, p) => out ++ decodeAux p bs
  | .e2 b0, b :: bs =>
    if isCont b then ((b0 - 192) * 64 + (b - 128)) :: decodeAux .none bs
    else match leadOf b with
      | (out, p) => out ++ decodeAux p bs
  | .e3a b0, b :: bs =>
    if cont3fst b0 b then decodeAux (.e3b b0 b) bs
    else match leadOf b with
      | (out, p) => out ++ decodeAux p bs
  | .e3b b0 b1, b :: bs =>
    if isCont b then
      ((b0 - 224) * 4096 + (b1 - 128) * 64 + (b - 128)) :: decodeAux .none bs
    else match leadOf b with
      | (out, p) => out ++ decodeAux p bs
  | .e4a b0, b :: bs =>
    if cont4fst b0 b then decodeAux (.e4b b0 b) bs
    else match leadOf b with
      | (out, p) => out ++ decodeAux p bs
  | .e4b b0 b1, b :: bs =>
    if isCont b then decodeAux (.e4c b0 b1 b) bs
    else match leadOf b with
      | (out, p) => out ++ decodeAux p bs
  | .e4c b0 b1 b2, b :: bs =>
    if isCont b then
      ((b0 - 240) * 262144 + (b1 - 128) * 4096 + (b2 - 128) * 64 + (b - 128)) ::
        decodeAux .none bs
    else match leadOf b with
      | (out, p) => out ++ decodeAux p bs

/-- `bytes.decode('utf-8', errors='ignore')`: decode well-formed UTF-8
sequences to their code points and drop ill-formed bytes. -/
def utf8DecodeIgnore (bs : List Nat) : List Nat := decodeAux .none bs

/-- UTF-8 encoding of one code point; surrogates and out-of-range
values produce no bytes (`errors='ignore'`). -/
def utf8EncodeChar (c : Nat) : List Nat :=
  if c < 128 then [c]
  else if c < 2048 then [192 + c / 64, 128 + c % 64]
  else if c < 65536 then
    if 55296 ≤ c ∧ c < 57344 then []
    else [224 + c / 4096, 128 + c / 64 % 64, 128 + c % 64]
  else if c < 1114112 then
    [240 + c / 262144, 128 + c / 4096 % 64, 128 + c / 64 % 64, 128 + c % 64]
  else []

/-- `s.encode('utf-8', errors='ignore')` on a Python string. -/
def utf8Encode (s : PyStr) : List Nat := (s.map utf8EncodeChar).flatten

/-- A Unicode scalar value: what one code point of a well-formed
Python `str` can be. -/
abbrev isValidScalar (c : Nat) : Prop := c < 1114112 ∧ ¬ (55296 ≤ c ∧ c < 57344)

example : utf8DecodeIgnore [255] = [] := by decide
example : utf8DecodeIgnore [104, 105] = [104, 105] := by decide
example : utf8DecodeIgnore [194, 169] = [169] := by decide
example : utf8DecodeIgnore [226, 130, 172] = [8364] := by decide
example : utf8DecodeIgnore [240, 159, 146, 150] = [128150] := by decide
example : utf8Encode [8364] = [226, 130, 172] := by decide
example : utf8DecodeIgnore [237, 160, 128] = [] := by decide
example : utf8DecodeIgnore [224, 128, 128] = [] := by decide

theorem decodeAux_none_cons (b : Nat) (bs : List Nat) :
    decodeAux .none (b :: bs) = (leadOf b).1 ++ decodeAux (leadOf b).2 bs := by
  rcases h : leadOf b with ⟨out, p⟩
  simp [decodeAux, h]

theorem leadOf_ascii (b : Nat) (h : b < 128) : leadOf b = ([b], .none) := by
  rw [leadOf, if_pos h]

theorem leadOf_e2 (b : Nat) (h : 194 ≤ b ∧ b ≤ 223) : leadOf b = ([], .e2 b) := by
  rw [leadOf, if_neg (by omega), if_pos h]

theorem leadOf_e3a (b : Nat) (h : 224 ≤ b ∧ b ≤ 239) : leadOf b = ([], .e3a b) := by
  rw [leadOf, if_neg (by omega), if_neg (by omega), if_pos h]

theorem leadOf_e4a (b : Nat) (h : 240 ≤ b ∧ b ≤ 244) : leadOf b = ([], .e4a b) := by
  rw [leadOf, if_neg (by omega), if_neg (by omega), if_neg (by omega), if_pos h]

theorem decodeAux_e2_cont (b0 b : Nat) (bs : List Nat) (h : isCont b) :
    decodeAux (.e2 b0) (b :: bs) = ((b0 - 192) * 64 + (b - 128)) :: decodeAux .none bs := by
  simp [decodeAux, h]

theorem decodeAux_e3a_cont (b0 b : Nat) (bs : List Nat) (h : cont3fst b0 b) :
    decodeAux (.e3a b0) (b :: bs) = decodeAux (.e3b b0 b) bs := by
  rw [decodeAux, if_pos h]

theorem decodeAux_e3b_cont (b0 b1 b : Nat) (bs : List Nat) (h : isCont b) :
    decodeAux (.e3b b0 b1) (b :: bs) =
      ((b0 - 224) * 4096 + (b1 - 128) * 64 + (b - 128)) :: decodeAux .none bs := by
  simp [decodeAux, h]

theorem decodeAux_e4a_cont (b0 b : Nat) (bs : List Nat) (h : cont4fst b0 b) :
    decodeAux (.e4a b0) (b :: bs) = decodeAux (.e4b b0 b) bs := by
  rw [decodeAux, if_pos h]

theorem decodeAux_e4b_cont (b0 b1 b : Nat) (bs : List Nat) (h : isCont b) :
    decodeAux (.e4b b0 b1) (b :: bs) = decodeAux (.e4c b0 b1 b) bs := by
  simp [decodeAux, h]

theorem decodeAux_e4c_cont (b0 b1 b2 b : Nat) (bs : List Nat) (h : isCont b) :
    decodeAux (.e4c b0 b1 b2) (b :: bs) =
      ((b0 - 240) * 262144 + (b1 - 128) * 4096 + (b2 - 128) * 64 + (b - 128)) ::
        decodeAux .none bs := by
  simp [decodeAux, h]

/-- Decoding a well-formed encoded scalar prepended to any byte tail
recovers the scalar. -/
theorem decodeAux_encodeChar (c : Nat) (h : isValidScalar c) (bs : List Nat) :
    decodeAux .none (utf8EncodeChar c ++ bs) = c :: decodeAux .none bs := by
  obtain ⟨hlt, hsur⟩ := h
  by_cases h1 : c < 128
  · rw [utf8EncodeChar, if_pos h1]
    rw [List.cons_append, List.nil_append, decodeAux_none_cons, leadOf_ascii c h1]
    rfl
  · by_cases h2 : c < 2048
    · rw [utf8EncodeChar, if_neg h1, if_pos h2]
      rw [List.cons_append, List.cons_append, List.nil_append, decodeAux_none_cons,
        leadOf_e2 _ (by omega)]
      rw [List.nil_append]
      rw [decodeAux_e2_cont _ _ _ (by constructor <;> omega)]
      congr 1
      omega
    · by_cases h3 : c < 65536
      · rw [utf8EncodeChar, if_neg h1, if_neg h2, if_pos h3, if_neg hsur]
        rw [List.cons_append, List.cons_append, List.cons_append, List.nil_append,
          decodeAux_none_cons, leadOf_e3a _ (by omega), List.nil_append]
        rw [decodeAux_e3a_cont _ _ _ (by refine ⟨fun hx => ?_, fun hx => ?_, by omega, by omega⟩ <;> omega)]
        rw [decodeAux_e3b_cont _ _ _ _ (by constructor <;> omega)]
        congr 1
        omega
      · rw [utf8EncodeChar, if_neg h1, if_neg h2, if_neg h3, if_pos (by omega)]
        rw [List.cons_append, List.cons_append, List.cons_append, List.cons_append,
          List.nil_append, decodeAux_none_cons, leadOf_e4a _ (by omega), List.nil_append]
        rw [decodeAux_e4a_cont _ _ _ (by refine ⟨fun hx => ?_, fun hx => ?_, by omega, by omega⟩ <;> omega)]
        rw [decodeAux_e4b_cont _ _ _ _ (by constructor <;> omega)]
        rw [decodeAux_e4c_cont _ _ _ _ _ (by constructor <;> omega)]
        congr 1
        omega

/-- Decoding is a left inverse of encoding on well-formed strings. -/
theorem utf8DecodeIgnore_encode (s : PyStr) (h : ∀ c ∈ s, isValidScalar c) :
    utf8DecodeIgnore (utf8Encode s) = s := by
  induction s with
  | nil => rfl
  | cons c cs ih =>
    have hc : isValidScalar c := h c (List.mem_cons_self c cs)
    have hrest : ∀ x ∈ cs, isValidScalar x := fun x hx => h x (List.mem_cons_of_mem c hx)
    show decodeAux .none (utf8Encode (c :: cs)) = c :: cs
    have : utf8Encode (c :: cs) = utf8EncodeChar c ++ utf8Encode cs := by
      simp [utf8Encode]
    rw [this, decodeAux_encodeChar c hc]
    exact congrArg (c :: ·) (ih hrest)

/-!
The `HTTPProxy` component.  Network effects are an oracle: one
`forward_to_web_server` call observes an `OriginBehavior`, namely the
outcome of the connect/send phase and the sequence of `recv` outcomes
seen by the receive loop.
-/

/-- The `HTTPProxy.stats` dictionary. -/
structure ProxyStats where
  total_requests : Nat
  cache_hits : Nat
  cache_misses : Nat
  gateway_errors : Nat
  timeout_errors : Nat
deriving DecidableEq

/-- Outcome of the `connect`/`sendall` phase of one forwarding call:
success, `socket.timeout`, `ConnectionRefusedError`, or any other
exception (the three `except` arms of `forward_to_web_server`). -/
inductive ConnectResult where
  | ok
  | timedOut
  | refused
  | otherError
deriving DecidableEq

/-- One outcome of `server_socket.recv(4096)` inside the receive loop:
a chunk of bytes (the empty chunk means the peer closed), or a
`socket.timeout`. -/
inductive RecvEvent where
  | chunk (bytes : List Nat)
  | timedOut
deriving DecidableEq

/-- The origin's observable behaviour during one forwarding call. -/
structure OriginBehavior where
  connect : ConnectResult
  recvs : List RecvEvent
deriving DecidableEq

/-- The receive loop of `forward_to_web_server`: concatenate chunks
until an empty chunk (`if not chunk: break`) or a `socket.timeout`,
which the inner `except` clause catches and turns into a plain
`break`. -/
def recvLoop : List RecvEvent → List Nat
  | [] => []
  | .chunk bs :: rest => if bs = [] then [] else bs ++ recvLoop rest
  | .timedOut :: _ => []

/-- The synthetic response of the `socket.timeout` arm. -/
def resp504 : PyStr :=
  pyStr "HTTP/1.1 504 Gateway Timeout\r\nContent-Type: text/plain\r\n\r\n504 Gateway Timeout"

/-- The synthetic response of the `ConnectionRefusedError` and generic
`Exception` arms. -/
def resp502 : PyStr :=
  pyStr "HTTP/1.1 502 Bad Gateway\r\nContent-Type: text/plain\r\n\r\n502 Bad Gateway"

/-- `HTTPProxy.forward_to_web_server`: connect, send the request, read
chunks until close or timeout, and decode the bytes with
`errors='ignore'`; on `socket.timeout` of the connect/send phase return
the synthetic 504 and bump `timeout_errors`; on refusal or any other
exception return the synthetic 502 and bump `gateway_errors`.  (The
Python function also returns a processing time, irrelevant to every
claim.) -/
def forward_to_web_server (stats : ProxyStats) (origin : OriginBehavior) :
    PyStr × ProxyStats :=
  match origin.connect with
  | .ok => (utf8DecodeIgnore (recvLoop origin.recvs), stats)
  | .timedOut => (resp504, { stats with timeout_errors := stats.timeout_errors + 1 })
  | .refused => (resp502, { stats with gateway_errors := stats.gateway_errors + 1 })
  | .otherError => (resp502, { stats with gateway_errors := stats.gateway_errors + 1 })

/-- Python whitespace, as recognised by `str.split()` with no
arguments. -/
def isPySpace (c : Nat) : Bool :=
  c == 32 || c == 9 || c == 10 || c == 13 || c == 11 || c == 12

/-- Helper of `pySplitWs`, carrying the current token reversed. -/
def pySplitWsAux : List Nat → List Nat → List PyStr
  | [], acc => if acc = [] then [] else [acc.reverse]
  | c :: rest, acc =>
    if isPySpace c then
      if acc = [] then pySplitWsAux rest []
      else acc.reverse :: pySplitWsAux rest []
    else pySplitWsAux rest (c :: acc)

/-- `request_line.split()`: split on runs of whitespace, dropping empty
pieces. -/
def pySplitWs (s : PyStr) : List PyStr := pySplitWsAux s []

/-- `request_data.split('\r\n')[0]`: the request text up to the first
CRLF (the whole text when no CRLF occurs). -/
def firstLine : PyStr → PyStr
  | [] => []
  | 13 :: 10 :: _ => []
  | c :: rest => c :: firstLine rest

/-- `HTTPProxy.extract_path`: second whitespace-separated token of the
first request line, or the Python `None` sentinel when the line has
fewer than two tokens. -/
def extract_path (request_data : PyStr) : PathKey :=
  let parts := pySplitWs (firstLine request_data)
  if h : 2 ≤ parts.length then some (parts.get ⟨1, by omega⟩) else none

/-- One accepted TCP connection: the decoded request text received from
the client, and how the origin behaves should the proxy forward. -/
structure Conn where
  request : PyStr
  origin : OriginBehavior

/-- The shared mutable state of `HTTPProxy`: the cache dictionary and
the stats counters. -/
structure ProxyState where
  cache : Cache
  stats : ProxyStats
deriving DecidableEq

/-- The state built by `HTTPProxy.__init__`: empty cache, all counters
zero. -/
def initState : ProxyState := { cache := [], stats := ⟨0, 0, 0, 0, 0⟩ }

/-- Python truthiness of `cached_response` in `if cached_response:`:
`None` and the empty string are falsy. -/
def pyTruthy : Option PyStr → Bool
  | none => false
  | some s => !s.isEmpty

/-- Observable outcome of `HTTPProxy.handle_client` on one connection:
the new shared state, the bytes written back to the client, and whether
an origin connection was attempted. -/
structure ConnResult where
  state : ProxyState
  sentToClient : List Nat
  contactedOrigin : Bool
deriving DecidableEq

/-- `HTTPProxy.handle_client`: an empty request returns at once;
otherwise extract the path, count the request, serve from the cache on
a (truthy) hit, else forward to the origin, count the miss, try to
admit the response, and send the re-encoded response to the client. -/
def handle_client (s : ProxyState) (conn : Conn) : ConnResult :=
  if conn.request = [] then ⟨s, [], false⟩
  else
    let path := extract_path conn.request
    let stats1 := { s.stats with total_requests := s.stats.total_requests + 1 }
    let cached := HTTPCache.get s.cache path
    if pyTruthy cached then
      ⟨⟨s.cache, { stats1 with cache_hits := stats1.cache_hits + 1 }⟩,
        utf8Encode (cached.getD []), false⟩
    else
      let fr := forward_to_web_server stats1 conn.origin
      let stats2 := { fr.2 with cache_misses := fr.2.cache_misses + 1 }
      let cache2 := (HTTPCache.set s.cache path fr.1).1
      ⟨⟨cache2, stats2⟩, utf8Encode fr.1, true⟩

/-- A sequence of connections handled one after the other. -/
def runConns (s : ProxyState) : List Conn → ProxyState
  | [] => s
  | c :: rest => runConns (handle_client s c).state rest

/-!
The `UDPQoSProxy` component.
-/

/-- Outcome of a `sendto` call. -/
inductive UdpSendResult where
  | ok
  | error
deriving DecidableEq

/-- Outcome of the single `recvfrom(65535)` on the forwarding socket. -/
inductive UdpRecvResult where
  | reply (bytes : List Nat)
  | timedOut
  | error
deriving DecidableEq

/-- Observable behaviour of the network during one `handle_packet`
call. -/
structure UdpOracle where
  sendToOrigin : UdpSendResult
  recv : UdpRecvResult
  sendToClient : UdpSendResult
deriving DecidableEq

/-- The `UDPQoSProxy.stats` dictionary. -/
structure UdpStats where
  total_packets : Nat
  forwarded_packets : Nat
  failed_packets : Nat
deriving DecidableEq

/-- `UDPQoSProxy.handle_packet`: forward the datagram, wait for one
reply, relay it to the client and count it as forwarded; a
`socket.timeout` or any other exception anywhere in the `try` block is
counted as failed, and the client receives nothing. -/
def handle_packet (st : UdpStats) (o : UdpOracle) : UdpStats × Option (List Nat) :=
  match o.sendToOrigin with
  | .error => ({ st with failed_packets := st.failed_packets + 1 }, none)
  | .ok =>
    match o.recv with
    | .timedOut => ({ st with failed_packets := st.failed_packets + 1 }, none)
    | .error => ({ st with failed_packets := st.failed_packets + 1 }, none)
    | .reply d =>
      match o.sendToClient with
      | .error => ({ st with failed_packets := st.failed_packets + 1 }, none)
      | .ok => ({ st with forwarded_packets := st.forwarded_packets + 1 }, some d)

example : extract_path (pyStr "GET /index.html HTTP/1.1\r\nHost: x\r\n\r\n") =
    some (pyStr "/index.html") := by decide
example : extract_path (pyStr "GARBAGE") = none := by decide
example : extract_path (pyStr "") = none := by decide
example : recvLoop [.chunk [72, 105], .chunk [], .chunk [33]] = [72, 105] := by decide
example : recvLoop [.timedOut] = [] := by decide

/-- A concrete connection: a plain GET whose origin answers with a 200
status line. -/
def connGetRoot : Conn :=
  ⟨pyStr "GET / HTTP/1.1", ⟨.ok, [.chunk (utf8Encode (pyStr "HTTP/1.1 200 OK"))]⟩⟩

/-- A first request for `/index.html` whose origin replies with a full
200 response. -/
def connIndexMiss : Conn :=
  ⟨pyStr "GET /index.html HTTP/1.1\r\nHost: a\r\n\r\n",
   ⟨.ok, [.chunk (utf8Encode (pyStr "HTTP/1.1 200 OK\r\nContent-Length: 5\r\n\r\nhello"))]⟩⟩

/-- A second request for `/index.html`; its origin would refuse, which
must not matter on a hit. -/
def connIndexAgain : Conn :=
  ⟨pyStr "GET /index.html HTTP/1.1\r\nHost: a\r\n\r\n", ⟨.refused, []⟩⟩


theorem forward_stats_counts (st : ProxyStats) (o : OriginBehavior) :
    (forward_to_web_server st o).2.total_requests = st.total_requests ∧
    (forward_to_web_server st o).2.cache_hits = st.cache_hits ∧
    (forward_to_web_server st o).2.cache_misses = st.cache_misses := by
  rcases o with ⟨c, rs⟩
  cases c <;> simp [forward_to_web_server]

/-- C2 counterexample: when the origin accepts the connection but the
first receive attempt times out, `forward_to_web_server` returns the
empty response and leaves `timeout_errors` unchanged, not the synthetic
504: the inner `except socket.timeout` merely breaks the receive
loop. -/
theorem forward_silent_origin_not_504 :
    ¬ ((forward_to_web_server ⟨0, 0, 0, 0, 0⟩ ⟨.ok, [.timedOut]⟩).1 = resp504 ∧
       (forward_to_web_server ⟨0, 0, 0, 0, 0⟩ ⟨.ok, [.timedOut]⟩).2.timeout_errors = 1) := by
  decide

/-- C2 (amended): the synthetic 504 with a `timeout_errors` increment
is produced exactly by a `socket.timeout` of the connect/send phase;
when the origin accepts but every receive attempt times out, the call
returns the empty response string and changes no counter. -/
theorem forward_timeout_vs_silent (st : ProxyStats) (o : OriginBehavior) :
    (o.connect = .timedOut →
      forward_to_web_server st o =
        (resp504, { st with timeout_errors := st.timeout_errors + 1 })) ∧
    (o.connect = .ok → ∀ rest, o.recvs = .timedOut :: rest →
      forward_to_web_server st o = ([], st)) := by
  rcases o with ⟨c, rs⟩
  constructor
  · intro h
    simp only at h
    subst h
    rfl
  · intro h rest hr
    simp only at h hr
    subst h
    subst hr
    rfl

/-- Witness for C2 (amended) at a concrete connect timeout and a
concrete accepted-but-silent origin. -/
theorem forward_timeout_vs_silent_witness :
    forward_to_web_server ⟨0, 0, 0, 0, 0⟩ ⟨.timedOut, []⟩ = (resp504, ⟨0, 0, 0, 0, 1⟩) ∧
    forward_to_web_server ⟨0, 0, 0, 0, 0⟩ ⟨.ok, [.timedOut]⟩ = ([], ⟨0, 0, 0, 0, 0⟩) :=
  ⟨(forward_timeout_vs_silent ⟨0, 0, 0, 0, 0⟩ ⟨.timedOut, []⟩).1 rfl,
   (forward_timeout_vs_silent ⟨0, 0, 0, 0, 0⟩ ⟨.ok, [.timedOut]⟩).2 rfl [] rfl⟩

/-- C6: a refused connection, and likewise any other non-timeout
exception, makes `forward_to_web_server` return exactly the synthetic
502, increment `gateway_errors` by one, and leave `timeout_errors`
unchanged. -/
theorem forward_refused_or_error_502 (st : ProxyStats) (o : OriginBehavior)
    (h : o.connect = .refused ∨ o.connect = .otherError) :
    forward_to_web_server st o =
      (resp502, { st with gateway_errors := st.gateway_errors + 1 }) ∧
    (forward_to_web_server st o).2.timeout_errors = st.timeout_errors := by
  rcases o with ⟨c, rs⟩
  simp only at h
  rcases h with h | h <;> subst h <;> exact ⟨rfl, rfl⟩

/-- Witness for C6 at a concrete refusal and a concrete generic
error. -/
theorem forward_refused_or_error_502_witness :
    (forward_to_web_server ⟨0, 0, 0, 0, 0⟩ ⟨.refused, []⟩ = (resp502, ⟨0, 0, 0, 1, 0⟩) ∧
     (forward_to_web_server ⟨0, 0, 0, 0, 0⟩ ⟨.refused, []⟩).2.timeout_errors = 0) ∧
    (forward_to_web_server ⟨0, 0, 0, 0, 0⟩ ⟨.otherError, []⟩ = (resp502, ⟨0, 0, 0, 1, 0⟩) ∧
     (forward_to_web_server ⟨0, 0, 0, 0, 0⟩ ⟨.otherError, []⟩).2.timeout_errors = 0) :=
  ⟨forward_refused_or_error_502 ⟨0, 0, 0, 0, 0⟩ ⟨.refused, []⟩ (Or.inl rfl),
   forward_refused_or_error_502 ⟨0, 0, 0, 0, 0⟩ ⟨.otherError, []⟩ (Or.inr rfl)⟩

/-- C10: a connection whose received request is empty is closed with
the shared state untouched (all five counters and the cache), nothing
written to the client, and no origin connection. -/
theorem handle_client_empty_request (s : ProxyState) (o : OriginBehavior) :
    handle_client s ⟨[], o⟩ = ⟨s, [], false⟩ := by
  rfl

/-- C9: a datagram whose forwarding times out waiting for the origin's
reply, or fails with any error while sending to or receiving from the
origin, produces no reply to the client, increments `failed_packets` by
exactly one, and leaves `forwarded_packets` (and `total_packets`)
unchanged. -/
theorem handle_packet_failure (st : UdpStats) (o : UdpOracle)
    (h : o.sendToOrigin = .error ∨ o.recv = .timedOut ∨ o.recv = .error) :
    handle_packet st o = ({ st with failed_packets := st.failed_packets + 1 }, none) := by
  rcases o with ⟨so, r, sc⟩
  simp only at h
  cases so <;> cases r <;> simp_all [handle_packet]

/-- Witness for C9 at a concrete receive timeout. -/
theorem handle_packet_failure_witness :
    handle_packet ⟨5, 3, 2⟩ ⟨.ok, .timedOut, .ok⟩ = (⟨5, 3, 3⟩, none) :=
  handle_packet_failure ⟨5, 3, 2⟩ ⟨.ok, .timedOut, .ok⟩ (Or.inr (Or.inl rfl))

theorem handle_client_step_stats (s : ProxyState) (c : Conn) (h : c.request ≠ []) :
    (handle_client s c).state.stats.total_requests = s.stats.total_requests + 1 ∧
    (((handle_client s c).state.stats.cache_hits = s.stats.cache_hits + 1 ∧
      (handle_client s c).state.stats.cache_misses = s.stats.cache_misses) ∨
     ((handle_client s c).state.stats.cache_hits = s.stats.cache_hits ∧
      (handle_client s c).state.stats.cache_misses = s.stats.cache_misses + 1)) := by
  by_cases hc : pyTruthy (HTTPCache.get s.cache (extract_path c.request))
  · refine ⟨?_, Or.inl ⟨?_, ?_⟩⟩ <;> simp [handle_client, h, hc]
  · obtain ⟨ht, hh, hm⟩ :=
      forward_stats_counts
        { s.stats with total_requests := s.stats.total_requests + 1 } c.origin
    refine ⟨?_, Or.inr ⟨?_, ?_⟩⟩ <;>
      simp [handle_client, h, hc, ht, hh, hm]

theorem runConns_stats_invariant (conns : List Conn) (s : ProxyState)
    (hs : s.stats.cache_hits + s.stats.cache_misses = s.stats.total_requests)
    (h : ∀ c ∈ conns, c.request ≠ []) :
    (runConns s conns).stats.cache_hits + (runConns s conns).stats.cache_misses
      = (runConns s conns).stats.total_requests := by
  induction conns generalizing s with
  | nil => exact hs
  | cons c rest ih =>
    obtain ⟨ht, hcase⟩ := handle_client_step_stats s c (h c (List.mem_cons_self c rest))
    show (runConns (handle_client s c).state rest).stats.cache_hits + _ = _
    refine ih (handle_client s c).state ?_ (fun x hx => h x (List.mem_cons_of_mem c hx))
    rcases hcase with ⟨h1, h2⟩ | ⟨h1, h2⟩ <;> omega

/-- C4: each connection with a non-empty request increments
`total_requests` exactly once and exactly one of `cache_hits` and
`cache_misses` exactly once, so any sequence of such connections keeps
`cache_hits + cache_misses = total_requests`. -/
theorem stats_hit_miss_invariant :
    (∀ (s : ProxyState) (c : Conn), c.request ≠ [] →
      (handle_client s c).state.stats.total_requests = s.stats.total_requests + 1 ∧
      (((handle_client s c).state.stats.cache_hits = s.stats.cache_hits + 1 ∧
        (handle_client s c).state.stats.cache_misses = s.stats.cache_misses) ∨
       ((handle_client s c).state.stats.cache_hits = s.stats.cache_hits ∧
        (handle_client s c).state.stats.cache_misses = s.stats.cache_misses + 1))) ∧
    (∀ conns : List Conn, (∀ c ∈ conns, c.request ≠ []) →
      (runConns initState conns).stats.cache_hits +
        (runConns initState conns).stats.cache_misses
        = (runConns initState conns).stats.total_requests) :=
  ⟨handle_client_step_stats,
   fun conns h => runConns_stats_invariant conns initState rfl h⟩

/-- Witness for C4: one concrete connection and a two-connection
sequence (a miss followed by a hit). -/
theorem stats_hit_miss_invariant_witness :
    ((handle_client initState connGetRoot).state.stats.total_requests =
        initState.stats.total_requests + 1 ∧
      (((handle_client initState connGetRoot).state.stats.cache_hits =
          initState.stats.cache_hits + 1 ∧
        (handle_client initState connGetRoot).state.stats.cache_misses =
          initState.stats.cache_misses) ∨
       ((handle_client initState connGetRoot).state.stats.cache_hits =
          initState.stats.cache_hits ∧
        (handle_client initState connGetRoot).state.stats.cache_misses =
          initState.stats.cache_misses + 1))) ∧
    (runConns initState [connGetRoot, connGetRoot]).stats.cache_hits +
      (runConns initState [connGetRoot, connGetRoot]).stats.cache_misses
      = (runConns initState [connGetRoot, connGetRoot]).stats.total_requests :=
  ⟨stats_hit_miss_invariant.1 initState connGetRoot (by decide),
   stats_hit_miss_invariant.2 [connGetRoot, connGetRoot] (by decide)⟩

theorem handle_client_hit (s : ProxyState) (c : Conn) (r : PyStr)
    (hreq : c.request ≠ [])
    (hget : HTTPCache.get s.cache (extract_path c.request) = some r)
    (hrne : r ≠ []) :
    handle_client s c =
      ⟨⟨s.cache,
        { s.stats with total_requests := s.stats.total_requests + 1,
                       cache_hits := s.stats.cache_hits + 1 }⟩,
       utf8Encode r, false⟩ := by
  have htr : pyTruthy (HTTPCache.get s.cache (extract_path c.request)) = true := by
    rw [hget]
    simp [pyTruthy, hrne]
  simp [handle_client, hreq, htr, hget, pyTruthy, hrne]

theorem handle_client_miss_ok (s : ProxyState) (c : Conn)
    (hreq : c.request ≠ [])
    (hmiss : pyTruthy (HTTPCache.get s.cache (extract_path c.request)) = false)
    (hok : c.origin.connect = .ok) :
    (handle_client s c).sentToClient =
      utf8Encode (utf8DecodeIgnore (recvLoop c.origin.recvs)) ∧
    (handle_client s c).state.cache =
      (HTTPCache.set s.cache (extract_path c.request)
        (utf8DecodeIgnore (recvLoop c.origin.recvs))).1 := by
  rcases c with ⟨req, ⟨oc, rv⟩⟩
  simp only at hok hmiss hreq
  subst hok
  constructor <;> simp [handle_client, hreq, hmiss, forward_to_web_server]

/-- C3 counterexample: after a successful admit of one 200 response, a
second admit of another 200 response for the same path succeeds and the
lookup now returns the second response, not the first. -/
theorem admit_overwrites_cex :
    (HTTPCache.set [] (some (pyStr "/x")) (pyStr "HTTP/1.1 200 A")).2 = true ∧
    (HTTPCache.set (HTTPCache.set [] (some (pyStr "/x")) (pyStr "HTTP/1.1 200 A")).1
        (some (pyStr "/x")) (pyStr "HTTP/1.1 200 B")).2 = true ∧
    cacheLookup
        (HTTPCache.set (HTTPCache.set [] (some (pyStr "/x")) (pyStr "HTTP/1.1 200 A")).1
          (some (pyStr "/x")) (pyStr "HTTP/1.1 200 B")).1 (some (pyStr "/x")) ≠
      some (pyStr "HTTP/1.1 200 A") := by
  decide

/-- C3 (amended): `HTTPCache.set` itself overwrites — after two
successful admits for the same path the lookup returns the second
response; but `handle_client` never calls `set` for a path whose cache
entry is present and non-empty (such a request is a hit), so through
the proxy flow an inserted entry is never overwritten. -/
theorem cache_overwrite_and_proxy_guard :
    (∀ (c : Cache) (p : PathKey) (r1 r2 : PyStr),
      listStartsWith r2 http200 = true →
      (HTTPCache.set (HTTPCache.set c p r1).1 p r2).2 = true ∧
      cacheLookup (HTTPCache.set (HTTPCache.set c p r1).1 p r2).1 p = some r2) ∧
    (∀ (s : ProxyState) (conn : Conn),
      pyTruthy (HTTPCache.get s.cache (extract_path conn.request)) = true →
      (handle_client s conn).state.cache = s.cache) := by
  constructor
  · intro c p r1 r2 h2
    constructor
    · simp [HTTPCache.set, h2]
    · simp [HTTPCache.set, h2, cacheLookup]
  · intro s conn h
    by_cases hr : conn.request = []
    · simp [handle_client, hr]
    · simp [handle_client, hr, h]

/-- Witness for C3 (amended): a concrete double admit, and a concrete
proxy state already holding an entry for the requested path. -/
theorem cache_overwrite_and_proxy_guard_witness :
    ((HTTPCache.set (HTTPCache.set [] (some (pyStr "/y")) (pyStr "HTTP/1.1 200 A")).1
        (some (pyStr "/y")) (pyStr "HTTP/1.1 200 B")).2 = true ∧
     cacheLookup
        (HTTPCache.set (HTTPCache.set [] (some (pyStr "/y")) (pyStr "HTTP/1.1 200 A")).1
          (some (pyStr "/y")) (pyStr "HTTP/1.1 200 B")).1 (some (pyStr "/y")) =
       some (pyStr "HTTP/1.1 200 B")) ∧
    (handle_client
        ⟨[(some (pyStr "/y"), pyStr "HTTP/1.1 200 A")], ⟨1, 0, 1, 0, 0⟩⟩
        ⟨pyStr "GET /y HTTP/1.1", ⟨.refused, []⟩⟩).state.cache =
      [(some (pyStr "/y"), pyStr "HTTP/1.1 200 A")] :=
  ⟨cache_overwrite_and_proxy_guard.1 [] (some (pyStr "/y"))
      (pyStr "HTTP/1.1 200 A") (pyStr "HTTP/1.1 200 B") (by decide),
   cache_overwrite_and_proxy_guard.2
      ⟨[(some (pyStr "/y"), pyStr "HTTP/1.1 200 A")], ⟨1, 0, 1, 0, 0⟩⟩
      ⟨pyStr "GET /y HTTP/1.1", ⟨.refused, []⟩⟩ (by decide)⟩

/-- C7: after a miss whose origin reply decodes to a string with a 200
status line, the response is stored under the request's path, a lookup
of that path returns it, and a second request for the same path is
served from the cache — same bytes sent, no origin contact, cache
untouched. -/
theorem cache_hit_after_store (s : ProxyState) (c1 c2 : Conn)
    (h1 : c1.request ≠ [])
    (hmiss : pyTruthy (HTTPCache.get s.cache (extract_path c1.request)) = false)
    (hok : c1.origin.connect = .ok)
    (h200 : listStartsWith (utf8DecodeIgnore (recvLoop c1.origin.recvs)) http200 = true)
    (h2 : c2.request ≠ [])
    (hsame : extract_path c2.request = extract_path c1.request) :
    cacheLookup (handle_client s c1).state.cache (extract_path c1.request) =
      some (utf8DecodeIgnore (recvLoop c1.origin.recvs)) ∧
    (handle_client (handle_client s c1).state c2).contactedOrigin = false ∧
    (handle_client (handle_client s c1).state c2).sentToClient =
      utf8Encode (utf8DecodeIgnore (recvLoop c1.origin.recvs)) ∧
    (handle_client (handle_client s c1).state c2).state.cache =
      (handle_client s c1).state.cache := by
  obtain ⟨hsent, hcache⟩ := handle_client_miss_ok s c1 h1 hmiss hok
  have hrne : utf8DecodeIgnore (recvLoop c1.origin.recvs) ≠ [] := by
    intro hnil
    rw [hnil] at h200
    exact absurd h200 (by decide)
  have hcache2 : (handle_client s c1).state.cache =
      (extract_path c1.request, utf8DecodeIgnore (recvLoop c1.origin.recvs)) :: s.cache := by
    rw [hcache]
    simp [HTTPCache.set, h200]
  have hlook : cacheLookup (handle_client s c1).state.cache (extract_path c1.request) =
      some (utf8DecodeIgnore (recvLoop c1.origin.recvs)) := by
    rw [hcache2]
    simp [cacheLookup]
  have hget2 : HTTPCache.get (handle_client s c1).state.cache (extract_path c2.request) =
      some (utf8DecodeIgnore (recvLoop c1.origin.recvs)) := by
    rw [HTTPCache.get, hsame, hlook]
  have hhit := handle_client_hit (handle_client s c1).state c2 _ h2 hget2 hrne
  exact ⟨hlook, by rw [hhit], by rw [hhit], by rw [hhit]⟩

/-- Witness for C7 at the round-trip scenario of the specification. -/
theorem cache_hit_after_store_witness :
    cacheLookup (handle_client initState connIndexMiss).state.cache
        (extract_path connIndexMiss.request) =
      some (utf8DecodeIgnore (recvLoop connIndexMiss.origin.recvs)) ∧
    (handle_client (handle_client initState connIndexMiss).state
        connIndexAgain).contactedOrigin = false ∧
    (handle_client (handle_client initState connIndexMiss).state
        connIndexAgain).sentToClient =
      utf8Encode (utf8DecodeIgnore (recvLoop connIndexMiss.origin.recvs)) ∧
    (handle_client (handle_client initState connIndexMiss).state
        connIndexAgain).state.cache =
      (handle_client initState connIndexMiss).state.cache :=
  cache_hit_after_store initState connIndexMiss connIndexAgain
    (by decide) (by decide) rfl (by decide) (by decide) (by decide)

theorem cacheLookup_set_none (c : Cache) (p : PathKey) (r : PyStr)
    (h0 : cacheLookup c none = none)
    (hp : p = none → listStartsWith r http200 = false) :
    cacheLookup (HTTPCache.set c p r).1 none = none := by
  by_cases hs : listStartsWith r http200 = true
  · cases p with
    | none =>
      rw [hp rfl] at hs
      exact absurd hs (by decide)
    | some q => simp [HTTPCache.set, hs, cacheLookup, h0]
  · simp [HTTPCache.set, hs, h0]

/-- C8 counterexample: a malformed request line makes `extract_path`
return the `None` sentinel; when the origin replies to the forwarded
request with a 200 status line, `handle_client` admits that response
under `None` and a later `None` lookup hits. -/
theorem none_lookup_can_hit_cex :
    extract_path (pyStr "GARBAGE") = none ∧
    HTTPCache.get
        (handle_client initState
          ⟨pyStr "GARBAGE",
           ⟨.ok, [.chunk (utf8Encode (pyStr "HTTP/1.1 200 OK"))]⟩⟩).state.cache
        none ≠ none := by
  decide

/-- C8 (amended): a `None` lookup can only hit after a 200-prefixed
response has been admitted under the `None` sentinel; as long as no
forwarded response of a malformed request decodes to a string starting
with `HTTP/1.1 200`, a `None` lookup keeps returning `None` (the
synthetic 502 and 504 responses in particular are never admitted). -/
theorem none_lookup_no_hit_unless_200 (s : ProxyState) (c : Conn)
    (h0 : HTTPCache.get s.cache none = none)
    (h1 : extract_path c.request = none → c.origin.connect = .ok →
      listStartsWith (utf8DecodeIgnore (recvLoop c.origin.recvs)) http200 = false) :
    HTTPCache.get (handle_client s c).state.cache none = none := by
  by_cases hreq : c.request = []
  · simpa [handle_client, hreq] using h0
  · by_cases hc : pyTruthy (HTTPCache.get s.cache (extract_path c.request))
    · simpa [handle_client, hreq, hc] using h0
    · rcases c with ⟨req, ⟨oc, rv⟩⟩
      simp only at hreq hc h1
      have hcache : (handle_client s ⟨req, ⟨oc, rv⟩⟩).state.cache =
          (HTTPCache.set s.cache (extract_path req)
            (forward_to_web_server
              { s.stats with total_requests := s.stats.total_requests + 1 }
              ⟨oc, rv⟩).1).1 := by
        simp [handle_client, hreq, hc]
      rw [HTTPCache.get, hcache]
      apply cacheLookup_set_none _ _ _ h0
      intro hpn
      cases oc with
      | ok => exact h1 hpn rfl
      | timedOut => exact (by decide : listStartsWith resp504 http200 = false)
      | refused => exact (by decide : listStartsWith resp502 http200 = false)
      | otherError => exact (by decide : listStartsWith resp502 http200 = false)

/-- Witness for C8 (amended): a malformed request whose forwarding is
refused leaves the `None` entry absent. -/
theorem none_lookup_no_hit_unless_200_witness :
    HTTPCache.get
        (handle_client initState ⟨pyStr "GARBAGE", ⟨.refused, []⟩⟩).state.cache none =
      none :=
  none_lookup_no_hit_unless_200 initState ⟨pyStr "GARBAGE", ⟨.refused, []⟩⟩
    (by decide) (by decide)

/-- C5 counterexample: an origin byte string that is not valid UTF-8 is
not relayed byte-for-byte — the decode/encode pair of the proxy drops
the invalid byte `0xFF`. -/
theorem relay_not_byte_exact_cex :
    recvLoop [RecvEvent.chunk [255]] = [255] ∧
    (handle_client initState
        ⟨pyStr "GET /x HTTP/1.1", ⟨.ok, [.chunk [255]]⟩⟩).sentToClient ≠ [255] := by
  decide

/-- C5 (amended): on a cache miss the bytes sent back to the client are
identical to the bytes received from the origin whenever those bytes
are a well-formed UTF-8 encoding; ill-formed bytes are dropped by
`decode(..., errors='ignore')` before the re-encode. -/
theorem relay_byte_exact_on_valid_utf8 (s : ProxyState) (c : Conn) (cps : PyStr)
    (hreq : c.request ≠ [])
    (hmiss : pyTruthy (HTTPCache.get s.cache (extract_path c.request)) = false)
    (hok : c.origin.connect = .ok)
    (hbytes : recvLoop c.origin.recvs = utf8Encode cps)
    (hvalid : ∀ x ∈ cps, isValidScalar x) :
    (handle_client s c).sentToClient = recvLoop c.origin.recvs := by
  rw [(handle_client_miss_ok s c hreq hmiss hok).1, hbytes,
    utf8DecodeIgnore_encode cps hvalid]

/-- Witness for C5 (amended) at the specification's round-trip
response. -/
theorem relay_byte_exact_on_valid_utf8_witness :
    (handle_client initState connIndexMiss).sentToClient =
      recvLoop connIndexMiss.origin.recvs :=
  relay_byte_exact_on_valid_utf8 initState connIndexMiss
    (pyStr "HTTP/1.1 200 OK\r\nContent-Length: 5\r\n\r\nhello")
    (by decide) (by decide) rfl (by decide) (by decide)
